import Mathlib

/-!
Verification of the tracked-buffer slot pool
(`codechal_encode_tracked_buffer.cpp`) and the HEVC reference-index
bookkeeping (`codechal_encode_hevc_base.cpp`) of the media-driver encoder.

The C++ is shallowly embedded: the mutable members of
`CodechalEncodeTrackedBuffer` / `CodechalEncodeHevcBase` become fields of
explicit state records, and each member function becomes a Lean function
from state (plus the per-frame inputs it reads from the encoder) to state.
Machine integers are modelled as `Nat`; the only wrap-around the code relies
on is the explicit `% CODEC_NUM_NON_REF_BUFFERS`, kept as is.
-/

namespace MediaDriver

/-- Constant `CODEC_NUM_REF_BUFFERS`: size of the reference region of the tracked
buffer table (spec `RefCapacity`, default 8). -/
def CODEC_NUM_REF_BUFFERS : Nat := 8

/-- Constant `CODEC_NUM_NON_REF_BUFFERS`: size of the non-reference region
(spec `NonRefCapacity`, default 3). -/
def CODEC_NUM_NON_REF_BUFFERS : Nat := 3

/-- Constant `CODEC_NUM_TRACKED_BUFFERS = CODEC_NUM_REF_BUFFERS + CODEC_NUM_NON_REF_BUFFERS`. -/
def CODEC_NUM_TRACKED_BUFFERS : Nat := CODEC_NUM_REF_BUFFERS + CODEC_NUM_NON_REF_BUFFERS

/-- Constant `CODEC_MAX_NUM_REF_FRAME`: bound checked on `ucNumRef` in
`LookUpBufIndex` (16 for the common codec definitions). -/
def CODEC_MAX_NUM_REF_FRAME : Nat := 16

/-- Sentinel `PICTURE_MAX_7BITS`: sentinel frame index marking a tracked-buffer slot
as free / unbound.  Any concrete value above every valid 7-bit frame index
works; the code only compares it for equality. -/
def PICTURE_MAX_7BITS : Nat := 127

/-- Sentinel `PICTURE_RESIZE`: sentinel marking a slot as protected during a
resolution change (distinct from `PICTURE_MAX_7BITS` and from every valid
frame index). -/
def PICTURE_RESIZE : Nat := 126

/-- Pointwise update of a function, modelling `a[i] = v` on a C array. -/
def updFun {α : Type} (f : Nat → α) (i : Nat) (v : α) : Nat → α :=
  fun j => if j = i then v else f j

/-- State of `CodechalEncodeTrackedBuffer` (plus, for resource-lifetime
claims, a per-slot record of whether the slot currently owns physical
buffers and under which picture-geometry generation they were created).

`surf i` is `m_trackedBuffer[i].ucSurfIndex7bits`.  `res i` collapses the
slot's physical resources (MbCode, MvData, DsRecon, DS surfaces) into one
`Option Nat`: `some g` means the slot owns buffers allocated while the
geometry generation was `g`, `none` means they are released.  Every release
site in the source (`Resize`, `ReleaseBufferOnResChange`) releases all of a
slot's resource kinds together, and allocation for the bound slot is lazy
(`GetResource` first), so one field per slot is a faithful abstraction. -/
structure TrackedBufState where
  surf : Nat → Nat
  res : Nat → Option Nat
  currIdx : Nat
  penuIdx : Nat
  anteIdx : Nat
  countNonRef : Nat
  nonRefIdx : Nat
  countResize : Nat
  waitForTrackedBuffer : Bool
  geom : Nat

/-- Per-frame inputs `AllocateForCurrFrame` / `LookUpBufIndex` read from the
encoder: the current reference list's frame identities
(`currRefList->RefList[0..ucNumRef)`, as their `FrameIdx` values),
`currRefList->bUsedAsRef`, `m_gopIsIdrFrameOnly`, `m_waitForPak`, and
`m_currReconstructedPic.FrameIdx`. -/
structure FrameInput where
  refList : List Nat
  usedAsRef : Bool
  idrOnly : Bool
  waitForPak : Bool
  currReconIdx : Nat

/-- One iteration of the reclamation scan of `LookUpBufIndex`: the value of
`ucSurfIndex7bits` after the "no longer active, can be re-used" step.  A
non-sentinel identity absent from `refPicIdx` is reset to
`PICTURE_MAX_7BITS`; anything else is left unchanged. -/
def freeStale (needed : List Nat) (v : Nat) : Nat :=
  if v ≠ PICTURE_MAX_7BITS ∧ v ≠ PICTURE_RESIZE ∧ ¬ v ∈ needed then
    PICTURE_MAX_7BITS
  else v

/-- The reference-region loop of `LookUpBufIndex`, iterated over the given
slot indices: frees stale slots in order and records the first slot found
free (the `notFound` flag is encoded as `idx = PICTURE_MAX_7BITS`, the
initial value of `index`; selected indices are `< CODEC_NUM_REF_BUFFERS`,
so the encoding is lossless). -/
def refScanList (needed : List Nat) : List Nat → (Nat → Nat) → Nat → ((Nat → Nat) × Nat)
  | [], surf, idx => (surf, idx)
  | i :: rest, surf, idx =>
    let v := freeStale needed (surf i)
    let surf' := updFun surf i v
    let idx' := if idx = PICTURE_MAX_7BITS ∧ v = PICTURE_MAX_7BITS then i else idx
    refScanList needed rest surf' idx'

/-- The reference-frame branch of `LookUpBufIndex`: scan slots
`0 .. CODEC_NUM_REF_BUFFERS - 1` in order. -/
def refScan (needed : List Nat) (surf : Nat → Nat) : ((Nat → Nat) × Nat) :=
  refScanList needed (List.range CODEC_NUM_REF_BUFFERS) surf PICTURE_MAX_7BITS

/-- Result of `LookUpBufIndex`: the returned index plus the members it
mutates. -/
structure LookUpResult where
  index : Nat
  surf : Nat → Nat
  countNonRef : Nat
  nonRefIdx : Nat

/-- Whether `LookUpBufIndex` takes its reference-frame branch on this input
(`usedAsRef && numRefFrame <= CODEC_MAX_NUM_REF_FRAME &&
!m_gopIsIdrFrameOnly`). -/
def refBranchTaken (inp : FrameInput) : Bool :=
  inp.usedAsRef && decide (inp.refList.length ≤ CODEC_MAX_NUM_REF_FRAME) && !inp.idrOnly

/-- Function `CodechalEncodeTrackedBuffer::LookUpBufIndex`.

Reference branch: reclaim stale reference-region slots and pick the first
free one.  Non-reference branch: update the saturating
`m_trackedBufCountNonRef` (reset when `m_waitForPak`), advance the
round-robin cursor, and pick `CODEC_NUM_REF_BUFFERS + cursor`.  In both
branches the chosen slot, when in range, is bound to
`m_currReconstructedPic.FrameIdx`. -/
def lookUpBufIndex (inp : FrameInput) (surf : Nat → Nat)
    (countNonRef nonRefIdx : Nat) : LookUpResult :=
  let r : LookUpResult :=
    if refBranchTaken inp then
      ⟨(refScan inp.refList surf).2, (refScan inp.refList surf).1, countNonRef, nonRefIdx⟩
    else
      let cnt := if inp.waitForPak then 0
        else if countNonRef < CODEC_NUM_NON_REF_BUFFERS then countNonRef + 1 else countNonRef
      let nr := (nonRefIdx + 1) % CODEC_NUM_NON_REF_BUFFERS
      ⟨CODEC_NUM_REF_BUFFERS + nr, surf, cnt, nr⟩
  { r with
    surf := if r.index < CODEC_NUM_TRACKED_BUFFERS then updFun r.surf r.index inp.currReconIdx
      else r.surf }

/-- Function `CodechalEncodeTrackedBuffer::ReleaseBufferOnResChange`: while the
deferred-release window is open, release the oldest of the three protected
slots (unless it coincides with one of the two newer ones) and mark it
free. -/
def releaseBufferOnResChange (s : TrackedBufState) : TrackedBufState :=
  if s.anteIdx ≠ s.penuIdx ∧ s.anteIdx ≠ s.currIdx then
    { s with
      res := updFun s.res s.anteIdx none,
      surf := updFun s.surf s.anteIdx PICTURE_MAX_7BITS }
  else s

/-- Outcome of one `AllocateForCurrFrame` call: the new state, the slot
index chosen, and whether the call succeeded (`false` when the
`CODECHAL_ENCODE_CHK_COND_RETURN` "No tracked buffer is available!" check
fired and the function returned an error). -/
structure AllocOutcome where
  st : TrackedBufState
  index : Nat
  ok : Bool

/-- The deferred-release preamble of `AllocateForCurrFrame`: while
`m_trackedBufCountResize` is non-zero, call `ReleaseBufferOnResChange` and
decrement the counter. -/
def drainResizeStep (s : TrackedBufState) : TrackedBufState :=
  if s.countResize ≠ 0 then
    let t := releaseBufferOnResChange s
    { t with countResize := t.countResize - 1 }
  else s

/-- Function `CodechalEncodeTrackedBuffer::AllocateForCurrFrame`: drain one step of
the deferred-release window if open, shift the last-three slot indices,
look up a slot for the current frame, fail if none is available, compute
`m_waitForTrackedBuffer`, and lazily create the chosen slot's resources
under the current geometry (the `GetResource` early-exits keep existing
buffers). -/
def allocateForCurrFrame (inp : FrameInput) (s : TrackedBufState) : AllocOutcome :=
  let s1 := drainResizeStep s
  let r := lookUpBufIndex inp s1.surf s1.countNonRef s1.nonRefIdx
  let s2 := { s1 with
    surf := r.surf, countNonRef := r.countNonRef, nonRefIdx := r.nonRefIdx,
    anteIdx := s1.penuIdx, penuIdx := s1.currIdx, currIdx := r.index }
  if r.index ≥ CODEC_NUM_TRACKED_BUFFERS then
    -- error return: `m_waitForTrackedBuffer` keeps its previous value and
    -- no resources are allocated
    ⟨s2, r.index, false⟩
  else
    let wait := decide (r.index ≥ CODEC_NUM_REF_BUFFERS) &&
      decide (r.countNonRef ≥ CODEC_NUM_NON_REF_BUFFERS)
    let s3 := { s2 with
      waitForTrackedBuffer := wait,
      res := if (s2.res r.index).isNone then updFun s2.res r.index (some s2.geom) else s2.res }
    ⟨s3, r.index, true⟩

/-- Function `CodechalEncodeTrackedBuffer::Resize`: open a deferred-release window of
`CODEC_NUM_NON_REF_BUFFERS` frames; release every slot except the last
three used and mark it free; mark the last three `PICTURE_RESIZE`.  Only
slots `0 .. CODEC_NUM_TRACKED_BUFFERS - 1` are touched by the loop. -/
def resizeSlots (s : TrackedBufState) : TrackedBufState :=
  { s with
    countResize := CODEC_NUM_NON_REF_BUFFERS,
    surf := fun i =>
      if i < CODEC_NUM_TRACKED_BUFFERS then
        if i ≠ s.anteIdx ∧ i ≠ s.penuIdx ∧ i ≠ s.currIdx then PICTURE_MAX_7BITS
        else PICTURE_RESIZE
      else s.surf i,
    res := fun i =>
      if i < CODEC_NUM_TRACKED_BUFFERS then
        if i ≠ s.anteIdx ∧ i ≠ s.penuIdx ∧ i ≠ s.currIdx then none else s.res i
      else s.res i }

/-- A geometry change: the encoder detects new picture dimensions (modelled
as bumping the geometry generation) and calls `Resize()`. -/
def notifyGeometryChanged (s : TrackedBufState) : TrackedBufState :=
  resizeSlots { s with geom := s.geom + 1 }

/-- Constructor state: every slot free (`ucSurfIndex7bits =
PICTURE_MAX_7BITS`), no resources, all counters and indices zero. -/
def initState : TrackedBufState :=
  { surf := fun _ => PICTURE_MAX_7BITS
    res := fun _ => none
    currIdx := 0, penuIdx := 0, anteIdx := 0
    countNonRef := 0, nonRefIdx := 0, countResize := 0
    waitForTrackedBuffer := false
    geom := 0 }

/-- Operations the rest of the encoder performs on the pool. -/
inductive PoolOp where
  | alloc (inp : FrameInput)
  | geomChange

/-- Apply one pool operation. -/
def applyOp (s : TrackedBufState) : PoolOp → TrackedBufState
  | .alloc inp => (allocateForCurrFrame inp s).st
  | .geomChange => notifyGeometryChanged s

/-- Run a sequence of pool operations. -/
def runOps (s : TrackedBufState) (l : List PoolOp) : TrackedBufState :=
  l.foldl applyOp s

/-- The sequence of `m_waitForTrackedBuffer` values produced by a sequence
of allocations. -/
def allocTrace (s : TrackedBufState) : List FrameInput → List Bool
  | [] => []
  | inp :: rest =>
    let o := allocateForCurrFrame inp s
    o.st.waitForTrackedBuffer :: allocTrace o.st rest

/-! ## HEVC reference-index bookkeeping (`codechal_encode_hevc_base.cpp`) -/

/-- Constant `CODEC_MAX_NUM_REF_FRAME_HEVC`: length of the HEVC picture-level
candidate reference list (`RefFrameList`). -/
def CODEC_MAX_NUM_REF_FRAME_HEVC : Nat := 15

/-- Constant `CODECHAL_MAX_CUR_NUM_REF_FRAME_HEVC`: maximum number of unique
frame-store ids (8). -/
def CODECHAL_MAX_CUR_NUM_REF_FRAME_HEVC : Nat := 8

/-- Value `I_TYPE` of the `CODEC_PICTURE_CODING_TYPE` enum. -/
def I_TYPE : Nat := 1

/-- Value `P_TYPE` of the `CODEC_PICTURE_CODING_TYPE` enum. -/
def P_TYPE : Nat := 2

/-- A `CODEC_PICTURE`: its `FrameIdx` and whether its `PicFlags` differ from
`PICTURE_INVALID` (`valid = !CodecHal_PictureIsInvalid`). -/
structure CodecPicture where
  frameIdx : Nat
  valid : Bool
deriving DecidableEq

/-- Default read for positions outside a modelled list: an invalid entry. -/
def invalidPic : CodecPicture := ⟨PICTURE_MAX_7BITS, false⟩

/-- The slice-level parameters `SetPictureStructs` / `SetSliceStructs`
read: `num_ref_idx_l0_active_minus1`, `num_ref_idx_l1_active_minus1`, and
the two reference-picture lists (entries whose `frameIdx` is a position in
the picture-level `RefFrameList`). -/
structure HevcSliceParams where
  numL0Minus1 : Nat
  numL1Minus1 : Nat
  refPicList0 : List CodecPicture
  refPicList1 : List CodecPicture

/-- The entries of one slice's two reference lists in the order the
`bCurrUsedRefPic` loop of `SetPictureStructs` reads them: list 0 positions
`0 .. num_ref_idx_l0_active_minus1`, then list 1 positions
`0 .. num_ref_idx_l1_active_minus1`. -/
def sliceRefEntries (slc : HevcSliceParams) : List CodecPicture :=
  ((List.range (slc.numL0Minus1 + 1)).map (fun i => slc.refPicList0.getD i invalidPic)) ++
  ((List.range (slc.numL1Minus1 + 1)).map (fun i => slc.refPicList1.getD i invalidPic))

/-- Marking pass of `SetPictureStructs`: for each slice reference entry that
is valid and points at a valid candidate-list position, set
`bCurrUsedRefPic[refPic.FrameIdx]`. -/
def markUsedList (cand : List CodecPicture) (used : Nat → Bool)
    (pics : List CodecPicture) : Nat → Bool :=
  pics.foldl (fun u p =>
    if p.valid && (cand.getD p.frameIdx invalidPic).valid then updFun u p.frameIdx true else u)
    used

/-- Array `bCurrUsedRefPic` after the slice walk of `SetPictureStructs`
(initialised all-false, then every slice's reference entries marked). -/
def currUsedRefPic (cand : List CodecPicture) (slices : List HevcSliceParams) : Nat → Bool :=
  slices.foldl (fun u slc => markUsedList cand u (sliceRefEntries slc)) (fun _ => false)

/-- The `RefIdxMapping` loop of `SetPictureStructs`, over candidate-list
positions `i` in order, carrying the mapping (initialised to `-1`) and the
`RefIdx` counter.  NOTE: the inner duplicate search tests
`bCurrUsedRefPic[i]` — the current position `i`, not the earlier position
`ii` — exactly as the source does; at that point `bCurrUsedRefPic[i]` is
always true, so the search matches any earlier position with an equal
`FrameIdx`, whether or not that position was mapped.  On more than
`CODECHAL_MAX_CUR_NUM_REF_FRAME_HEVC` unique mapped positions the source
returns `MOS_STATUS_INVALID_PARAMETER`. -/
def refIdxMapLoop (cand : List CodecPicture) (used : Nat → Bool) :
    List Nat → (Nat → Int) → Nat → Except Unit ((Nat → Int) × Nat)
  | [], m, r => .ok (m, r)
  | i :: rest, m, r =>
    if !used i then refIdxMapLoop cand used rest m r
    else
      let index := (cand.getD i invalidPic).frameIdx
      match (List.range i).find? (fun ii =>
          used i && decide (index = (cand.getD ii invalidPic).frameIdx)) with
      | some ii => refIdxMapLoop cand used rest (updFun m i (m ii)) r
      | none =>
        if r ≥ CODECHAL_MAX_CUR_NUM_REF_FRAME_HEVC then .error ()
        else refIdxMapLoop cand used rest (updFun m i (Int.ofNat r)) (r + 1)

/-- Mapping `RefIdxMapping` construction of `SetPictureStructs`: run the loop over
all `CODEC_MAX_NUM_REF_FRAME_HEVC` candidate positions. -/
def buildRefIdxMapping (cand : List CodecPicture) (used : Nat → Bool) :
    Except Unit ((Nat → Int) × Nat) :=
  refIdxMapLoop cand used (List.range CODEC_MAX_NUM_REF_FRAME_HEVC) (fun _ => (-1 : Int)) 0

/-- The frame-store id `SetPictureStructs` assigns to candidate-list
position `i` of a picture with candidate list `cand` and slices `slices`:
`none` when reference resolution rejects the picture, `some (-1)` when the
position is left unmapped. -/
def refIdxMappingAt (cand : List CodecPicture) (slices : List HevcSliceParams)
    (i : Nat) : Option Int :=
  match buildRefIdxMapping cand (currUsedRefPic cand slices) with
  | .ok p => some (p.1 i)
  | .error _ => none

/-- Whether reference resolution accepts the picture (no
`MOS_STATUS_INVALID_PARAMETER` from the unique-reference capacity check). -/
def refResolutionOk (cand : List CodecPicture) (slices : List HevcSliceParams) : Bool :=
  match buildRefIdxMapping cand (currUsedRefPic cand slices) with
  | .ok _ => true
  | .error _ => false

/-- The distinct physical-frame identities active in the picture: the
`FrameIdx` values of the candidate positions marked by `bCurrUsedRefPic`,
deduplicated (spec-side notion, used to state capacity claims). -/
def activeIdentities (cand : List CodecPicture) (slices : List HevcSliceParams) : List Nat :=
  (((List.range CODEC_MAX_NUM_REF_FRAME_HEVC).filter
      (fun p => currUsedRefPic cand slices p)).map
    (fun p => (cand.getD p invalidPic).frameIdx)).dedup

/-- Whether the picture's active reference set is empty (no candidate-list
position is marked used by any slice). -/
def activeSetEmpty (cand : List CodecPicture) (slices : List HevcSliceParams) : Bool :=
  (List.range CODEC_MAX_NUM_REF_FRAME_HEVC).all (fun p => !(currUsedRefPic cand slices p))

/-- The `emptyRefFrmList` test of `SetPictureStructs`: every candidate-list
position has `PicFlags == PICTURE_INVALID`. -/
def emptyRefFrmList (cand : List CodecPicture) : Bool :=
  (List.range CODEC_MAX_NUM_REF_FRAME_HEVC).all (fun i => !(cand.getD i invalidPic).valid)

/-- Member `m_pictureCodingType` after the adjustment in `SetPictureStructs`:
"P/B frames with empty ref lists are internally encoded as I frames". -/
def adjustedPictureCodingType (codingType : Nat) (cand : List CodecPicture) : Nat :=
  if emptyRefFrmList cand && decide (codingType ≠ I_TYPE) then I_TYPE else codingType

/-- The inner loop body of `ValidateSameRefInL0L1`: whether some index
`0 .. num_ref_idx_l1_active_minus1` has valid entries in both lists with
different `FrameIdx`. -/
def sliceHasRefListMismatch (slc : HevcSliceParams) : Bool :=
  (List.range (slc.numL1Minus1 + 1)).any (fun r =>
    let p0 := slc.refPicList0.getD r invalidPic
    let p1 := slc.refPicList1.getD r invalidPic
    p0.valid && p1.valid && decide (p0.frameIdx ≠ p1.frameIdx))

/-- Function `CodechalEncodeHevcBase::ValidateSameRefInL0L1`: update `bSameRefList`
for one slice.  The comparison loop only runs while the flag is still set
and `num_ref_idx_l0_active_minus1 >= num_ref_idx_l1_active_minus1`. -/
def validateSameRefInL0L1 (same : Bool) (slc : HevcSliceParams) : Bool :=
  if same && decide (slc.numL0Minus1 ≥ slc.numL1Minus1) then !sliceHasRefListMismatch slc
  else same

/-- Flag `bSameRefList` after `SetSliceStructs` walks all slices (initialised
`true`). -/
def bSameRefList (slices : List HevcSliceParams) : Bool :=
  slices.foldl validateSameRefInL0L1 true

/-! ## Tracked-buffer resource allocation call sites -/

/-- The tracked resource kinds whose allocation the spec's zero-fill
sentence covers. -/
inductive TrackedResKind where
  | mbCodeBuffer
  | mvDataBuffer
  | ds4xRecon
  | ds8xRecon
deriving DecidableEq

/-- The `zeroOnAllocate` argument passed to `m_allocator->AllocateResource`
at each tracked-buffer lazy-allocation site: `true` in
`AllocateMbCodeResources` and `AllocateMvDataResources`, `false` for both
surfaces of `AllocateDsReconSurfacesVdenc`.  The flag is a literal at each
call site and does not depend on the slot index `bufIndex`. -/
def allocateResourceZeroFlag : TrackedResKind → Bool
  | .mbCodeBuffer => true
  | .mvDataBuffer => true
  | .ds4xRecon => false
  | .ds8xRecon => false

/-! ## Claim-side (spec-worded) definitions, for comparison with the code -/

/-- Claim-side backpressure flags (spec §8 "Backpressure correctness"):
the consecutive-non-reference counter is reset by a reference allocation or
by the external "prior use confirmed" signal, incremented otherwise, and
`mustWaitForPriorUse` is raised on the non-reference allocations where it
has reached `CODEC_NUM_NON_REF_BUFFERS`.  Follows the claim's words, to be
compared with `allocTrace`. -/
def claimBackpressureFlags : Nat → List FrameInput → List Bool
  | _, [] => []
  | c, inp :: rest =>
    if inp.usedAsRef then false :: claimBackpressureFlags 0 rest
    else if inp.waitForPak then false :: claimBackpressureFlags 0 rest
    else (decide (c + 1 ≥ CODEC_NUM_NON_REF_BUFFERS)) :: claimBackpressureFlags (c + 1) rest

/-- The slot-pool no-aliasing invariant exactly as the claim states it: at
most one slot of the whole table holds any given non-sentinel bound
identity. -/
def NoAliasingAll (s : TrackedBufState) : Prop :=
  ∀ i j, i < CODEC_NUM_TRACKED_BUFFERS → j < CODEC_NUM_TRACKED_BUFFERS → i ≠ j →
    s.surf i ≠ PICTURE_MAX_7BITS → s.surf i ≠ PICTURE_RESIZE → s.surf i ≠ s.surf j

/-- No-aliasing of non-sentinel identities among the reference-region
entries of a slot table. -/
def NoAliasSurf (surf : Nat → Nat) : Prop :=
  ∀ i j, i < CODEC_NUM_REF_BUFFERS → j < CODEC_NUM_REF_BUFFERS → i ≠ j →
    surf i ≠ PICTURE_MAX_7BITS → surf i ≠ PICTURE_RESIZE → surf i ≠ surf j

/-- No-aliasing restricted to the reference region (the amended invariant). -/
def NoAliasingRef (s : TrackedBufState) : Prop :=
  NoAliasSurf s.surf

/-- Side condition under which the reference-region no-aliasing invariant is
provable: an allocation that takes the reference branch binds an identity
that is not in its own candidate reference list (a picture is not its own
reference). -/
def goodPoolOp : PoolOp → Bool
  | .alloc inp => !(refBranchTaken inp) || !(decide (inp.currReconIdx ∈ inp.refList))
  | .geomChange => true

/-- The slot (if any) the reference branch of `LookUpBufIndex` selects: the
first reference-region index whose entry is free after its reclamation step
(free originally, or freed because its non-sentinel identity is absent from
the candidate list). -/
def refSel (needed : List Nat) (surf : Nat → Nat) : Option Nat :=
  (List.range CODEC_NUM_REF_BUFFERS).find?
    (fun i => decide (freeStale needed (surf i) = PICTURE_MAX_7BITS))

/-- The reference-frame allocation policy of claim C2, as one predicate on
an allocation call: scanning slots `0 .. CODEC_NUM_REF_BUFFERS - 1` in
index order, every scanned slot whose non-sentinel identity is absent from
the candidate list is unbound (`freeStale`); the selected slot is the first
one free in that scan order (`refSel`), it is bound to the incoming
identity, and when no reference-region slot ends up free the call fails
(the fatal "No tracked buffer is available!" return) with the whole
reference region reclaimed but nothing bound. -/
def RefAllocationPolicy (inp : FrameInput) (s : TrackedBufState) : Prop :=
  (allocateForCurrFrame inp s).index = (refSel inp.refList s.surf).getD PICTURE_MAX_7BITS ∧
  (∀ i, refSel inp.refList s.surf = some i →
    i < CODEC_NUM_REF_BUFFERS ∧
    freeStale inp.refList (s.surf i) = PICTURE_MAX_7BITS ∧
    (∀ j, j < i → freeStale inp.refList (s.surf j) ≠ PICTURE_MAX_7BITS) ∧
    (allocateForCurrFrame inp s).ok = true ∧
    (allocateForCurrFrame inp s).st.surf i = inp.currReconIdx ∧
    (∀ k, k < CODEC_NUM_REF_BUFFERS → k ≠ i →
      (allocateForCurrFrame inp s).st.surf k = freeStale inp.refList (s.surf k))) ∧
  (refSel inp.refList s.surf = none →
    (allocateForCurrFrame inp s).index = PICTURE_MAX_7BITS ∧
    (allocateForCurrFrame inp s).ok = false ∧
    (∀ k, k < CODEC_NUM_REF_BUFFERS →
      (allocateForCurrFrame inp s).st.surf k = freeStale inp.refList (s.surf k))) ∧
  (∀ k, CODEC_NUM_REF_BUFFERS ≤ k → (allocateForCurrFrame inp s).st.surf k = s.surf k)

/-- Whether no buffer of an old geometry generation remains in the pool. -/
def newGeomInPlace (s : TrackedBufState) : Bool :=
  (List.range CODEC_NUM_TRACKED_BUFFERS).all (fun i =>
    match s.res i with
    | none => true
    | some g => g == s.geom)

/-- Claim-side resize-safety statement (spec §8 "Resize safety"): after
`notifyGeometryChanged`, each of the three most-recently-bound slots that
owns resources keeps owning them as long as fewer than
`CODEC_NUM_NON_REF_BUFFERS` further allocation calls have occurred. -/
def claimResizeProtection : Prop :=
  ∀ (pre : List PoolOp) (post : List FrameInput),
    post.length < CODEC_NUM_NON_REF_BUFFERS →
    ∀ i, (i = (runOps initState pre).anteIdx ∨ i = (runOps initState pre).penuIdx ∨
          i = (runOps initState pre).currIdx) →
      (runOps initState pre).res i ≠ none →
      (runOps (notifyGeometryChanged (runOps initState pre)) (post.map PoolOp.alloc)).res i ≠ none

/-- Claim-side `sameRefListBothDirections` (spec §8): cleared iff some slice
has forward and backward lists differing (valid entries with different
identities) at a common index within the shorter list's length. -/
def claimSameRefList (slices : List HevcSliceParams) : Bool :=
  slices.all (fun slc =>
    !((List.range (min (slc.numL0Minus1 + 1) (slc.numL1Minus1 + 1))).any (fun r =>
      let p0 := slc.refPicList0.getD r invalidPic
      let p1 := slc.refPicList1.getD r invalidPic
      p0.valid && p1.valid && decide (p0.frameIdx ≠ p1.frameIdx))))

/-- Claim-side statement of the empty-active-set edge case (spec §4.4 edge
cases): a picture with a predicted coding type and an empty active
reference set is treated as all-intra. -/
def claimEmptyActiveIntra : Prop :=
  ∀ (codingType : Nat) (cand : List CodecPicture) (slices : List HevcSliceParams),
    activeSetEmpty cand slices = true → codingType ≠ I_TYPE →
    adjustedPictureCodingType codingType cand = I_TYPE

/-- Claim-side statement of uniform zero-fill (spec §4.1 side effect):
every tracked-buffer allocation site passes `zeroOnAllocate = true`. -/
def claimAllZeroFilled : Prop :=
  ∀ k : TrackedResKind, allocateResourceZeroFlag k = true

/-! ## Concrete test vectors -/

/-- A non-reference frame (disposable) with identity `id`, external wait
signal absent. -/
def nrInput (id : Nat) : FrameInput := ⟨[], false, false, false, id⟩

/-- A reference frame with identity `id` and candidate reference list `l`,
external wait signal absent. -/
def refInput (l : List Nat) (id : Nat) : FrameInput := ⟨l, true, false, false, id⟩

/-- Two non-reference allocations carrying the same identity: the sequence
that drives two slots to the same bound identity. -/
def aliasOps : List PoolOp := [.alloc (nrInput 5), .alloc (nrInput 5)]

/-- The end-to-end scenario of claim C3: pictures
`1(ref), 2(nonref), 3(nonref), 4(nonref), 5(ref)` with the external
wait-for-PAK signal absent throughout. -/
def scenarioC3 : List FrameInput :=
  [refInput [] 1, nrInput 2, nrInput 3, nrInput 4, refInput [1] 5]

/-- A sequence with an intervening reference allocation after the
non-reference counter saturates: `nonref, nonref, nonref, ref, nonref`. -/
def counterC3 : List FrameInput :=
  [nrInput 2, nrInput 3, nrInput 4, refInput [] 1, nrInput 6]

/-- Three reference allocations binding slots 0, 1, 2 (the state preceding
the resize scenario). -/
def preC4 : List PoolOp :=
  [.alloc (refInput [] 1), .alloc (refInput [1] 2), .alloc (refInput [1, 2] 3)]

/-- Three non-reference allocations following the geometry change. -/
def postC4 : List FrameInput := [nrInput 7, nrInput 8, nrInput 9]

/-- The pool state reached by `preC4`, a geometry change, and the first `k`
allocations of `postC4`. -/
def c4After (k : Nat) : TrackedBufState :=
  runOps (notifyGeometryChanged (runOps initState preC4)) ((postC4.take k).map PoolOp.alloc)

/-- Candidate list with position 1 aliasing position 0's identity (both name
physical frame 3). -/
def candC5 : List CodecPicture := [⟨3, true⟩, ⟨3, true⟩]

/-- A slice referencing only candidate-list position 1. -/
def slicesC5 : List HevcSliceParams := [⟨0, 0, [⟨1, true⟩], [invalidPic]⟩]

/-- The dedup example `[A, B, A, C]` (A=3, B=4, C=5). -/
def candDedup : List CodecPicture := [⟨3, true⟩, ⟨4, true⟩, ⟨3, true⟩, ⟨5, true⟩]

/-- A slice referencing all four positions of `candDedup`. -/
def slicesDedup : List HevcSliceParams :=
  [⟨3, 0, [⟨0, true⟩, ⟨1, true⟩, ⟨2, true⟩, ⟨3, true⟩], [invalidPic]⟩]

/-- Candidate list with 10 positions: position 0 (identity 10, not
referenced by any slice) aliases position 1; positions 1-9 carry the 9
distinct identities 10-18. -/
def candC6 : List CodecPicture :=
  [⟨10, true⟩, ⟨10, true⟩, ⟨11, true⟩, ⟨12, true⟩, ⟨13, true⟩, ⟨14, true⟩,
   ⟨15, true⟩, ⟨16, true⟩, ⟨17, true⟩, ⟨18, true⟩]

/-- Same picture but with position 0 carrying a fresh identity (99), so no
position aliases another. -/
def candC6core : List CodecPicture :=
  [⟨99, true⟩, ⟨10, true⟩, ⟨11, true⟩, ⟨12, true⟩, ⟨13, true⟩, ⟨14, true⟩,
   ⟨15, true⟩, ⟨16, true⟩, ⟨17, true⟩, ⟨18, true⟩]

/-- A slice whose forward list references candidate positions 1-9. -/
def slicesC6 : List HevcSliceParams :=
  [⟨8, 0, [⟨1, true⟩, ⟨2, true⟩, ⟨3, true⟩, ⟨4, true⟩, ⟨5, true⟩, ⟨6, true⟩,
    ⟨7, true⟩, ⟨8, true⟩, ⟨9, true⟩], [invalidPic]⟩]

/-- A slice whose backward list is longer than its forward list and whose
lists differ at index 0. -/
def slicesC7 : List HevcSliceParams := [⟨0, 1, [⟨1, true⟩], [⟨2, true⟩, ⟨3, true⟩]⟩]

/-- A candidate list with one valid entry. -/
def candC9 : List CodecPicture := [⟨1, true⟩]

/-- A slice all of whose reference entries are invalid (empty active set). -/
def slicesC9 : List HevcSliceParams := [⟨0, 0, [invalidPic], [invalidPic]⟩]

/-- Reference-allocation input for the C2 witness: candidate list `[1]`,
incoming identity 2. -/
def inputC2 : FrameInput := refInput [1] 2

/-! ## Helper lemmas -/

set_option maxHeartbeats 2000000

theorem updFun_self {α : Type} (f : Nat → α) (i : Nat) (v : α) : updFun f i v i = v := by
  simp [updFun]

theorem updFun_ne {α : Type} (f : Nat → α) {i k : Nat} (v : α) (h : k ≠ i) :
    updFun f i v k = f k := by
  simp [updFun, h]

theorem find?_congruent {α : Type} {p q : α → Bool} :
    ∀ l : List α, (∀ a ∈ l, p a = q a) → l.find? p = l.find? q := by
  intro l
  induction l with
  | nil => intro _; rfl
  | cons a rest ih =>
    intro h
    have ha := h a (List.mem_cons_self a rest)
    by_cases hp : p a = true
    · rw [List.find?_cons_of_pos _ hp, List.find?_cons_of_pos _ (ha ▸ hp)]
    · rw [List.find?_cons_of_neg _ (by simpa using hp),
        List.find?_cons_of_neg _ (by rw [← ha]; simpa using hp)]
      exact ih (fun b hb => h b (List.mem_cons_of_mem a hb))

theorem find?_pairwise_min {p : Nat → Bool} :
    ∀ l : List Nat, l.Pairwise (· < ·) → ∀ {i : Nat}, l.find? p = some i →
      ∀ j ∈ l, j < i → p j = false := by
  intro l
  induction l with
  | nil => intro _ i h; cases h
  | cons a rest ih =>
    intro hpw i hf j hj hji
    have hpw' := List.pairwise_cons.mp hpw
    by_cases hp : p a = true
    · rw [List.find?_cons_of_pos _ hp] at hf
      cases hf
      rcases List.mem_cons.mp hj with h | h
      · exact absurd (h ▸ hji) (lt_irrefl _)
      · exact absurd hji (not_lt_of_gt (hpw'.1 j h))
    · rw [List.find?_cons_of_neg _ (by simpa using hp)] at hf
      rcases List.mem_cons.mp hj with h | h
      · subst h; simpa using hp
      · exact ih hpw'.2 hf j h hji

/-! ## Reclamation-scan lemmas (`LookUpBufIndex`, reference branch) -/

theorem refScanList_surf_notMem (needed : List Nat) :
    ∀ (idxs : List Nat) (surf : Nat → Nat) (idx k : Nat), k ∉ idxs →
      (refScanList needed idxs surf idx).1 k = surf k := by
  intro idxs
  induction idxs with
  | nil => intro surf idx k _; rfl
  | cons i rest ih =>
    intro surf idx k hk
    have hki : k ≠ i := fun h => hk (h ▸ List.mem_cons_self i rest)
    simp only [refScanList]
    rw [ih _ _ k (fun h => hk (List.mem_cons_of_mem i h))]
    exact updFun_ne surf _ hki

theorem refScanList_surf_mem (needed : List Nat) :
    ∀ (idxs : List Nat), idxs.Nodup → ∀ (surf : Nat → Nat) (idx k : Nat), k ∈ idxs →
      (refScanList needed idxs surf idx).1 k = freeStale needed (surf k) := by
  intro idxs
  induction idxs with
  | nil => intro _ surf idx k hk; cases hk
  | cons i rest ih =>
    intro hnd surf idx k hk
    have hnd' := List.nodup_cons.mp hnd
    simp only [refScanList]
    rcases List.mem_cons.mp hk with h | h
    · subst h
      rw [refScanList_surf_notMem needed rest _ _ k hnd'.1]
      exact updFun_self surf k _
    · have hki : k ≠ i := fun hh => hnd'.1 (hh ▸ h)
      rw [ih hnd'.2 _ _ k h, updFun_ne surf _ hki]

theorem refScanList_idx_found (needed : List Nat) :
    ∀ (idxs : List Nat) (surf : Nat → Nat) (idx : Nat), idx ≠ PICTURE_MAX_7BITS →
      (refScanList needed idxs surf idx).2 = idx := by
  intro idxs
  induction idxs with
  | nil => intro _ _ _; rfl
  | cons i rest ih =>
    intro surf idx h
    simp only [refScanList]
    rw [if_neg (fun hc => h hc.1)]
    exact ih _ _ h

theorem refScanList_idx_char (needed : List Nat) :
    ∀ (idxs : List Nat), idxs.Nodup → (∀ i ∈ idxs, i ≠ PICTURE_MAX_7BITS) →
      ∀ surf : Nat → Nat,
      (refScanList needed idxs surf PICTURE_MAX_7BITS).2 =
        (idxs.find? (fun i => decide (freeStale needed (surf i) = PICTURE_MAX_7BITS))).getD
          PICTURE_MAX_7BITS := by
  intro idxs
  induction idxs with
  | nil => intro _ _ surf; rfl
  | cons i rest ih =>
    intro hnd hmx surf
    have hnd' := List.nodup_cons.mp hnd
    simp only [refScanList]
    by_cases hv : freeStale needed (surf i) = PICTURE_MAX_7BITS
    · rw [if_pos ⟨trivial, hv⟩,
        refScanList_idx_found needed rest _ i (hmx i (List.mem_cons_self i rest)),
        List.find?_cons_of_pos _ (by simpa using hv)]
      rfl
    · rw [if_neg (fun hc => hv hc.2),
        ih hnd'.2 (fun j hj => hmx j (List.mem_cons_of_mem i hj)) _,
        List.find?_cons_of_neg _ (by simpa using hv)]
      congr 1
      refine find?_congruent rest (fun j hj => ?_)
      have hji : j ≠ i := fun hh => hnd'.1 (hh ▸ hj)
      rw [updFun_ne surf _ hji]

theorem refScan_surf_lt (needed : List Nat) (surf : Nat → Nat) {k : Nat}
    (hk : k < CODEC_NUM_REF_BUFFERS) :
    (refScan needed surf).1 k = freeStale needed (surf k) :=
  refScanList_surf_mem needed _ (List.nodup_range _) surf _ k (List.mem_range.mpr hk)

theorem refScan_surf_ge (needed : List Nat) (surf : Nat → Nat) {k : Nat}
    (hk : CODEC_NUM_REF_BUFFERS ≤ k) :
    (refScan needed surf).1 k = surf k :=
  refScanList_surf_notMem needed _ surf _ k
    (fun h => absurd (List.mem_range.mp h) (Nat.not_lt.mpr hk))

theorem refScan_idx (needed : List Nat) (surf : Nat → Nat) :
    (refScan needed surf).2 = (refSel needed surf).getD PICTURE_MAX_7BITS :=
  refScanList_idx_char needed _ (List.nodup_range _)
    (fun i hi => Nat.ne_of_lt (lt_of_lt_of_le (List.mem_range.mp hi) (by decide))) surf

theorem refSel_some (needed : List Nat) (surf : Nat → Nat) {i : Nat}
    (h : refSel needed surf = some i) :
    i < CODEC_NUM_REF_BUFFERS ∧ freeStale needed (surf i) = PICTURE_MAX_7BITS ∧
      ∀ j, j < i → freeStale needed (surf j) ≠ PICTURE_MAX_7BITS := by
  have hmem : i ∈ List.range CODEC_NUM_REF_BUFFERS := List.mem_of_find?_eq_some h
  have hlt : i < CODEC_NUM_REF_BUFFERS := List.mem_range.mp hmem
  refine ⟨hlt, by simpa using List.find?_some h, fun j hj => ?_⟩
  have hjlt : j < CODEC_NUM_REF_BUFFERS := lt_trans hj hlt
  have := find?_pairwise_min (List.range CODEC_NUM_REF_BUFFERS)
    (List.pairwise_lt_range _) h j (List.mem_range.mpr hjlt) hj
  simpa using this

theorem refSel_none (needed : List Nat) (surf : Nat → Nat)
    (h : refSel needed surf = none) :
    ∀ j, j < CODEC_NUM_REF_BUFFERS → freeStale needed (surf j) ≠ PICTURE_MAX_7BITS := by
  intro j hj
  have := List.find?_eq_none.mp h j (List.mem_range.mpr hj)
  simpa using this

/-! ## `LookUpBufIndex` and `AllocateForCurrFrame` characterizations -/

section LookUpCharacterizations

attribute [local irreducible] refScan

theorem lookUp_eq_ref (inp : FrameInput) (surf : Nat → Nat) (c n : Nat)
    (h : refBranchTaken inp = true) :
    lookUpBufIndex inp surf c n =
      ⟨(refScan inp.refList surf).2,
       if (refScan inp.refList surf).2 < CODEC_NUM_TRACKED_BUFFERS then
         updFun (refScan inp.refList surf).1 (refScan inp.refList surf).2 inp.currReconIdx
       else (refScan inp.refList surf).1,
       c, n⟩ := by
  unfold lookUpBufIndex
  rw [h]
  rfl

theorem lookUp_eq_nonref (inp : FrameInput) (surf : Nat → Nat) (c n : Nat)
    (h : refBranchTaken inp = false) :
    lookUpBufIndex inp surf c n =
      ⟨CODEC_NUM_REF_BUFFERS + (n + 1) % CODEC_NUM_NON_REF_BUFFERS,
       updFun surf (CODEC_NUM_REF_BUFFERS + (n + 1) % CODEC_NUM_NON_REF_BUFFERS)
         inp.currReconIdx,
       (if inp.waitForPak = true then 0
        else if c < CODEC_NUM_NON_REF_BUFFERS then c + 1 else c),
       (n + 1) % CODEC_NUM_NON_REF_BUFFERS⟩ := by
  have hmod : (n + 1) % CODEC_NUM_NON_REF_BUFFERS < CODEC_NUM_NON_REF_BUFFERS :=
    Nat.mod_lt _ (by decide)
  have hlt : CODEC_NUM_REF_BUFFERS + (n + 1) % CODEC_NUM_NON_REF_BUFFERS <
      CODEC_NUM_TRACKED_BUFFERS := by
    simp only [CODEC_NUM_TRACKED_BUFFERS]
    omega
  have hstep : lookUpBufIndex inp surf c n =
      ⟨CODEC_NUM_REF_BUFFERS + (n + 1) % CODEC_NUM_NON_REF_BUFFERS,
       (if CODEC_NUM_REF_BUFFERS + (n + 1) % CODEC_NUM_NON_REF_BUFFERS <
            CODEC_NUM_TRACKED_BUFFERS then
         updFun surf (CODEC_NUM_REF_BUFFERS + (n + 1) % CODEC_NUM_NON_REF_BUFFERS)
           inp.currReconIdx
        else surf),
       (if inp.waitForPak = true then 0
        else if c < CODEC_NUM_NON_REF_BUFFERS then c + 1 else c),
       (n + 1) % CODEC_NUM_NON_REF_BUFFERS⟩ := by
    unfold lookUpBufIndex
    rw [h]
    rfl
  rw [hstep, if_pos hlt]

theorem lookUp_ref_index (inp : FrameInput) (surf : Nat → Nat) (c n : Nat)
    (h : refBranchTaken inp = true) :
    (lookUpBufIndex inp surf c n).index = (refSel inp.refList surf).getD PICTURE_MAX_7BITS :=
  (congrArg LookUpResult.index (lookUp_eq_ref inp surf c n h)).trans
    (refScan_idx inp.refList surf)

theorem lookUp_ref_counters (inp : FrameInput) (surf : Nat → Nat) (c n : Nat)
    (h : refBranchTaken inp = true) :
    (lookUpBufIndex inp surf c n).countNonRef = c ∧
      (lookUpBufIndex inp surf c n).nonRefIdx = n :=
  ⟨congrArg LookUpResult.countNonRef (lookUp_eq_ref inp surf c n h),
   congrArg LookUpResult.nonRefIdx (lookUp_eq_ref inp surf c n h)⟩

theorem lookUp_ref_surf_some (inp : FrameInput) (surf : Nat → Nat) (c n : Nat)
    (h : refBranchTaken inp = true) {i : Nat} (hsel : refSel inp.refList surf = some i) :
    (lookUpBufIndex inp surf c n).surf =
      updFun (refScan inp.refList surf).1 i inp.currReconIdx := by
  have hi8 : i < CODEC_NUM_REF_BUFFERS := (refSel_some _ _ hsel).1
  have hidx : (refScan inp.refList surf).2 = i := by
    rw [refScan_idx, hsel]
    rfl
  have h1 : (lookUpBufIndex inp surf c n).surf =
      if (refScan inp.refList surf).2 < CODEC_NUM_TRACKED_BUFFERS then
        updFun (refScan inp.refList surf).1 (refScan inp.refList surf).2 inp.currReconIdx
      else (refScan inp.refList surf).1 :=
    congrArg LookUpResult.surf (lookUp_eq_ref inp surf c n h)
  rw [hidx] at h1
  rw [if_pos (lt_of_lt_of_le hi8 (by decide))] at h1
  exact h1

theorem lookUp_ref_surf_none (inp : FrameInput) (surf : Nat → Nat) (c n : Nat)
    (h : refBranchTaken inp = true) (hsel : refSel inp.refList surf = none) :
    (lookUpBufIndex inp surf c n).surf = (refScan inp.refList surf).1 := by
  have hidx : (refScan inp.refList surf).2 = PICTURE_MAX_7BITS := by
    rw [refScan_idx, hsel]
    rfl
  have h1 : (lookUpBufIndex inp surf c n).surf =
      if (refScan inp.refList surf).2 < CODEC_NUM_TRACKED_BUFFERS then
        updFun (refScan inp.refList surf).1 (refScan inp.refList surf).2 inp.currReconIdx
      else (refScan inp.refList surf).1 :=
    congrArg LookUpResult.surf (lookUp_eq_ref inp surf c n h)
  rw [hidx] at h1
  rw [if_neg (by decide)] at h1
  exact h1

theorem lookUp_nonref_index_range (inp : FrameInput) (surf : Nat → Nat) (c n : Nat)
    (h : refBranchTaken inp = false) :
    CODEC_NUM_REF_BUFFERS ≤ (lookUpBufIndex inp surf c n).index ∧
      (lookUpBufIndex inp surf c n).index < CODEC_NUM_TRACKED_BUFFERS := by
  have hidx : (lookUpBufIndex inp surf c n).index =
      CODEC_NUM_REF_BUFFERS + (n + 1) % CODEC_NUM_NON_REF_BUFFERS :=
    congrArg LookUpResult.index (lookUp_eq_nonref inp surf c n h)
  have hmod : (n + 1) % CODEC_NUM_NON_REF_BUFFERS < CODEC_NUM_NON_REF_BUFFERS :=
    Nat.mod_lt _ (by decide)
  have htr : CODEC_NUM_TRACKED_BUFFERS = CODEC_NUM_REF_BUFFERS + CODEC_NUM_NON_REF_BUFFERS :=
    rfl
  constructor
  · rw [hidx]
    exact Nat.le_add_right _ _
  · rw [hidx, htr]
    omega

theorem drain_fields (s : TrackedBufState) :
    (drainResizeStep s).countNonRef = s.countNonRef ∧
      (drainResizeStep s).nonRefIdx = s.nonRefIdx ∧
      (drainResizeStep s).waitForTrackedBuffer = s.waitForTrackedBuffer ∧
      (drainResizeStep s).geom = s.geom := by
  by_cases h : s.countResize ≠ 0 <;>
    by_cases h2 : s.anteIdx ≠ s.penuIdx ∧ s.anteIdx ≠ s.currIdx <;>
    simp [drainResizeStep, releaseBufferOnResChange, h, h2]

theorem alloc_st_surf (inp : FrameInput) (s : TrackedBufState) :
    (allocateForCurrFrame inp s).st.surf =
      (lookUpBufIndex inp (drainResizeStep s).surf (drainResizeStep s).countNonRef
        (drainResizeStep s).nonRefIdx).surf := by
  simp only [allocateForCurrFrame]
  split <;> rfl

theorem alloc_index (inp : FrameInput) (s : TrackedBufState) :
    (allocateForCurrFrame inp s).index =
      (lookUpBufIndex inp (drainResizeStep s).surf (drainResizeStep s).countNonRef
        (drainResizeStep s).nonRefIdx).index := by
  simp only [allocateForCurrFrame]
  split <;> rfl

theorem alloc_st_countNonRef (inp : FrameInput) (s : TrackedBufState) :
    (allocateForCurrFrame inp s).st.countNonRef =
      (lookUpBufIndex inp (drainResizeStep s).surf (drainResizeStep s).countNonRef
        (drainResizeStep s).nonRefIdx).countNonRef := by
  simp only [allocateForCurrFrame]
  split <;> rfl

theorem alloc_ok_iff (inp : FrameInput) (s : TrackedBufState) :
    (allocateForCurrFrame inp s).ok = true ↔
      (lookUpBufIndex inp (drainResizeStep s).surf (drainResizeStep s).countNonRef
        (drainResizeStep s).nonRefIdx).index < CODEC_NUM_TRACKED_BUFFERS := by
  simp only [allocateForCurrFrame]
  split
  · rename_i hge
    simp only [Bool.false_eq_true, false_iff]
    omega
  · rename_i hge
    simp only [true_iff]
    omega

theorem alloc_wait_ok (inp : FrameInput) (s : TrackedBufState)
    (h : (allocateForCurrFrame inp s).ok = true) :
    (allocateForCurrFrame inp s).st.waitForTrackedBuffer =
      (decide (CODEC_NUM_REF_BUFFERS ≤ (allocateForCurrFrame inp s).index) &&
       decide (CODEC_NUM_NON_REF_BUFFERS ≤ (allocateForCurrFrame inp s).st.countNonRef)) := by
  have hok := (alloc_ok_iff inp s).mp h
  simp only [allocateForCurrFrame] at *
  split
  · rename_i hge
    omega
  · rfl

end LookUpCharacterizations

/-! ## Reference-region no-aliasing: preservation lemmas -/

section NoAliasing

attribute [local irreducible] refScan lookUpBufIndex

theorem freeStale_cases (needed : List Nat) (v : Nat) :
    freeStale needed v = PICTURE_MAX_7BITS ∨
      (freeStale needed v = v ∧
        (v = PICTURE_MAX_7BITS ∨ v = PICTURE_RESIZE ∨ v ∈ needed)) := by
  unfold freeStale
  split
  · exact Or.inl rfl
  · rename_i hcond
    push_neg at hcond
    by_cases h1 : v = PICTURE_MAX_7BITS
    · exact Or.inr ⟨rfl, Or.inl h1⟩
    · by_cases h2 : v = PICTURE_RESIZE
      · exact Or.inr ⟨rfl, Or.inr (Or.inl h2)⟩
      · exact Or.inr ⟨rfl, Or.inr (Or.inr (hcond h1 h2))⟩

theorem freeStale_ne (needed : List Nat) (surf : Nat → Nat) (hs : NoAliasSurf surf)
    {i j : Nat} (hi : i < CODEC_NUM_REF_BUFFERS) (hj : j < CODEC_NUM_REF_BUFFERS)
    (hij : i ≠ j) (hM : freeStale needed (surf i) ≠ PICTURE_MAX_7BITS)
    (hR : freeStale needed (surf i) ≠ PICTURE_RESIZE) :
    freeStale needed (surf i) ≠ freeStale needed (surf j) := by
  rcases freeStale_cases needed (surf i) with hfi | ⟨hfi, _⟩
  · exact absurd hfi hM
  · rw [hfi] at hM hR ⊢
    rcases freeStale_cases needed (surf j) with hfj | ⟨hfj, _⟩
    · rw [hfj]; exact hM
    · rw [hfj]; exact hs i j hi hj hij hM hR

theorem noAlias_scanned (needed : List Nat) (surf : Nat → Nat) (hs : NoAliasSurf surf) :
    NoAliasSurf (refScan needed surf).1 := by
  intro i j hi hj hij hM hR
  rw [refScan_surf_lt _ _ hi] at hM hR ⊢
  rw [refScan_surf_lt _ _ hj]
  exact freeStale_ne needed surf hs hi hj hij hM hR

theorem noAlias_scanned_bind (needed : List Nat) (surf : Nat → Nat) (recon : Nat)
    (hrec : recon ∉ needed) {i0 : Nat} (hsel : refSel needed surf = some i0)
    (hs : NoAliasSurf surf) :
    NoAliasSurf (updFun (refScan needed surf).1 i0 recon) := by
  intro i j hi hj hij hM hR
  by_cases hii : i = i0
  · subst hii
    have hj0 : j ≠ i := fun hh => hij hh.symm
    rw [updFun_self] at hM hR ⊢
    rw [updFun_ne _ _ hj0, refScan_surf_lt _ _ hj]
    rcases freeStale_cases needed (surf j) with hfj | ⟨hfj, hvj⟩
    · rw [hfj]; exact hM
    · rw [hfj]
      rcases hvj with hv | hv | hv
      · rw [hv]; exact hM
      · rw [hv]; exact hR
      · exact fun he => hrec (he ▸ hv)
  · rw [updFun_ne _ _ hii, refScan_surf_lt _ _ hi] at hM hR ⊢
    by_cases hjj : j = i0
    · subst hjj
      rw [updFun_self]
      rcases freeStale_cases needed (surf i) with hfi | ⟨hfi, hvi⟩
      · exact absurd hfi hM
      · rw [hfi] at hM hR ⊢
        rcases hvi with hv | hv | hv
        · exact absurd hv hM
        · exact absurd hv hR
        · exact fun he => hrec (he ▸ hv)
    · rw [updFun_ne _ _ hjj, refScan_surf_lt _ _ hj]
      exact freeStale_ne needed surf hs hi hj hij hM hR

theorem bool_eq_false_of_ne_true {b : Bool} (h : ¬ b = true) : b = false := by
  cases b
  · rfl
  · exact absurd rfl h

theorem noAlias_lookUp (inp : FrameInput) (surf : Nat → Nat) (c n : Nat)
    (hGood : refBranchTaken inp = true → inp.currReconIdx ∉ inp.refList)
    (hs : NoAliasSurf surf) :
    NoAliasSurf (lookUpBufIndex inp surf c n).surf := by
  by_cases h : refBranchTaken inp = true
  · cases hsel : refSel inp.refList surf with
    | none =>
      rw [lookUp_ref_surf_none inp surf c n h hsel]
      exact noAlias_scanned _ _ hs
    | some i0 =>
      rw [lookUp_ref_surf_some inp surf c n h hsel]
      exact noAlias_scanned_bind _ _ _ (hGood h) hsel hs
  · have hsurf : (lookUpBufIndex inp surf c n).surf =
        updFun surf (CODEC_NUM_REF_BUFFERS + (n + 1) % CODEC_NUM_NON_REF_BUFFERS)
          inp.currReconIdx :=
      congrArg LookUpResult.surf (lookUp_eq_nonref inp surf c n (bool_eq_false_of_ne_true h))
    rw [hsurf]
    intro i j hi hj hij hM hR
    have hine : i ≠ CODEC_NUM_REF_BUFFERS + (n + 1) % CODEC_NUM_NON_REF_BUFFERS :=
      Nat.ne_of_lt (lt_of_lt_of_le hi (Nat.le_add_right _ _))
    have hjne : j ≠ CODEC_NUM_REF_BUFFERS + (n + 1) % CODEC_NUM_NON_REF_BUFFERS :=
      Nat.ne_of_lt (lt_of_lt_of_le hj (Nat.le_add_right _ _))
    rw [updFun_ne _ _ hine] at hM hR ⊢
    rw [updFun_ne _ _ hjne]
    exact hs i j hi hj hij hM hR

theorem noAlias_release (s : TrackedBufState) (hs : NoAliasSurf s.surf) :
    NoAliasSurf (releaseBufferOnResChange s).surf := by
  unfold releaseBufferOnResChange
  split
  · show NoAliasSurf (updFun s.surf s.anteIdx PICTURE_MAX_7BITS)
    intro i j hi hj hij hM hR
    by_cases hii : i = s.anteIdx
    · rw [hii, updFun_self] at hM
      exact absurd rfl hM
    · rw [updFun_ne _ _ hii] at hM hR ⊢
      by_cases hjj : j = s.anteIdx
      · rw [hjj, updFun_self]
        exact hM
      · rw [updFun_ne _ _ hjj]
        exact hs i j hi hj hij hM hR
  · exact hs

theorem noAlias_drain (s : TrackedBufState) (hs : NoAliasSurf s.surf) :
    NoAliasSurf (drainResizeStep s).surf := by
  unfold drainResizeStep
  split
  · show NoAliasSurf (releaseBufferOnResChange s).surf
    exact noAlias_release s hs
  · exact hs

theorem noAlias_resize (s : TrackedBufState) : NoAliasSurf (resizeSlots s).surf := by
  intro i j hi hj hij hM hR
  exfalso
  have hi11 : i < CODEC_NUM_TRACKED_BUFFERS := lt_of_lt_of_le hi (by decide)
  have hsurf : (resizeSlots s).surf i =
      (if i < CODEC_NUM_TRACKED_BUFFERS then
        if i ≠ s.anteIdx ∧ i ≠ s.penuIdx ∧ i ≠ s.currIdx then PICTURE_MAX_7BITS
        else PICTURE_RESIZE
       else s.surf i) := rfl
  rw [hsurf, if_pos hi11] at hM hR
  by_cases hcond : i ≠ s.anteIdx ∧ i ≠ s.penuIdx ∧ i ≠ s.currIdx
  · rw [if_pos hcond] at hM
    exact hM rfl
  · rw [if_neg hcond] at hR
    exact hR rfl

theorem noAlias_applyOp (s : TrackedBufState) (op : PoolOp)
    (hop : goodPoolOp op = true) (hs : NoAliasingRef s) :
    NoAliasingRef (applyOp s op) := by
  cases op with
  | geomChange => exact noAlias_resize _
  | alloc inp =>
    show NoAliasSurf (allocateForCurrFrame inp s).st.surf
    rw [alloc_st_surf inp s]
    refine noAlias_lookUp inp _ _ _ (fun h hmem => ?_) (noAlias_drain s hs)
    have : goodPoolOp (PoolOp.alloc inp) = false := by
      simp only [goodPoolOp, h]
      simp [hmem]
    rw [hop] at this
    cases this

theorem noAlias_runOps :
    ∀ (l : List PoolOp) (s : TrackedBufState), (∀ op ∈ l, goodPoolOp op = true) →
      NoAliasingRef s → NoAliasingRef (runOps s l) := by
  intro l
  induction l with
  | nil => intro s _ hs; exact hs
  | cons op rest ih =>
    intro s hall hs
    exact ih (applyOp s op) (fun o ho => hall o (List.mem_cons_of_mem op ho))
      (noAlias_applyOp s op (hall op (List.mem_cons_self op rest)) hs)

theorem noAlias_init : NoAliasingRef initState := by
  intro i j hi hj hij hM hR
  exact absurd rfl hM

end NoAliasing

/-! ## Assembly of the reference-allocation policy -/

section PolicyAssembly

attribute [local irreducible] refScan lookUpBufIndex

theorem drain_id (s : TrackedBufState) (hz : s.countResize = 0) : drainResizeStep s = s := by
  unfold drainResizeStep
  rw [if_neg (fun hc => hc hz)]

theorem refAllocationPolicy_holds (inp : FrameInput) (s : TrackedBufState)
    (h : refBranchTaken inp = true) (hz : s.countResize = 0) :
    RefAllocationPolicy inp s := by
  have hd := drain_id s hz
  have hidx : (allocateForCurrFrame inp s).index =
      (refSel inp.refList s.surf).getD PICTURE_MAX_7BITS := by
    rw [alloc_index inp s, hd]
    exact lookUp_ref_index inp s.surf _ _ h
  have hsurf0 : (allocateForCurrFrame inp s).st.surf =
      (lookUpBufIndex inp s.surf s.countNonRef s.nonRefIdx).surf := by
    rw [alloc_st_surf inp s, hd]
  refine ⟨hidx, ?_, ?_, ?_⟩
  · intro i hsel
    obtain ⟨hi8, hfree, hmin⟩ := refSel_some inp.refList s.surf hsel
    have hidx' : (allocateForCurrFrame inp s).index = i := by
      rw [hidx, hsel]; rfl
    have hok : (allocateForCurrFrame inp s).ok = true := by
      rw [alloc_ok_iff inp s, hd]
      have : (lookUpBufIndex inp s.surf s.countNonRef s.nonRefIdx).index = i := by
        rw [lookUp_ref_index inp s.surf _ _ h, hsel]; rfl
      rw [this]
      exact lt_of_lt_of_le hi8 (by decide)
    have hsurf : (allocateForCurrFrame inp s).st.surf =
        updFun (refScan inp.refList s.surf).1 i inp.currReconIdx := by
      rw [hsurf0]
      exact lookUp_ref_surf_some inp s.surf _ _ h hsel
    refine ⟨hi8, hfree, hmin, hok, ?_, ?_⟩
    · rw [hsurf, updFun_self]
    · intro k hk8 hki
      rw [hsurf, updFun_ne _ _ hki, refScan_surf_lt _ _ hk8]
  · intro hsel
    have hidx' : (allocateForCurrFrame inp s).index = PICTURE_MAX_7BITS := by
      rw [hidx, hsel]; rfl
    have hok : (allocateForCurrFrame inp s).ok = false := by
      have hiff := alloc_ok_iff inp s
      rw [hd] at hiff
      have hl : (lookUpBufIndex inp s.surf s.countNonRef s.nonRefIdx).index =
          PICTURE_MAX_7BITS := by
        rw [lookUp_ref_index inp s.surf _ _ h, hsel]; rfl
      cases hb : (allocateForCurrFrame inp s).ok
      · rfl
      · have := hiff.mp hb
        rw [hl] at this
        exact absurd this (by decide)
    refine ⟨hidx', hok, ?_⟩
    intro k hk8
    rw [hsurf0, lookUp_ref_surf_none inp s.surf _ _ h hsel, refScan_surf_lt _ _ hk8]
  · intro k hk8
    cases hsel : refSel inp.refList s.surf with
    | none =>
      rw [hsurf0, lookUp_ref_surf_none inp s.surf _ _ h hsel, refScan_surf_ge _ _ hk8]
    | some i0 =>
      have hi8 : i0 < CODEC_NUM_REF_BUFFERS := (refSel_some _ _ hsel).1
      have hki : k ≠ i0 := Nat.ne_of_gt (lt_of_lt_of_le hi8 hk8)
      rw [hsurf0, lookUp_ref_surf_some inp s.surf _ _ h hsel, updFun_ne _ _ hki,
        refScan_surf_ge _ _ hk8]

theorem nonref_alloc_in_range (inp : FrameInput) (s : TrackedBufState)
    (h : refBranchTaken inp = false) :
    (allocateForCurrFrame inp s).index =
        CODEC_NUM_REF_BUFFERS + (s.nonRefIdx + 1) % CODEC_NUM_NON_REF_BUFFERS ∧
      CODEC_NUM_REF_BUFFERS ≤ (allocateForCurrFrame inp s).index ∧
      (allocateForCurrFrame inp s).index < CODEC_NUM_TRACKED_BUFFERS ∧
      (allocateForCurrFrame inp s).ok = true := by
  have hn : (drainResizeStep s).nonRefIdx = s.nonRefIdx := (drain_fields s).2.1
  have hidx : (allocateForCurrFrame inp s).index =
      CODEC_NUM_REF_BUFFERS + (s.nonRefIdx + 1) % CODEC_NUM_NON_REF_BUFFERS := by
    rw [alloc_index inp s]
    rw [congrArg LookUpResult.index
      (lookUp_eq_nonref inp (drainResizeStep s).surf (drainResizeStep s).countNonRef
        (drainResizeStep s).nonRefIdx h), hn]
  have hrange := lookUp_nonref_index_range inp (drainResizeStep s).surf
    (drainResizeStep s).countNonRef (drainResizeStep s).nonRefIdx h
  refine ⟨hidx, ?_, ?_, ?_⟩
  · rw [← alloc_index inp s] at hrange
    exact hrange.1
  · rw [← alloc_index inp s] at hrange
    exact hrange.2
  · rw [alloc_ok_iff inp s]
    rw [← alloc_index inp s] at hrange
    rw [← alloc_index inp s]
    exact hrange.2

theorem nonref_count_eq (inp : FrameInput) (s : TrackedBufState)
    (h : refBranchTaken inp = false) :
    (allocateForCurrFrame inp s).st.countNonRef =
      (if inp.waitForPak = true then 0
       else if s.countNonRef < CODEC_NUM_NON_REF_BUFFERS then s.countNonRef + 1
       else s.countNonRef) := by
  rw [alloc_st_countNonRef inp s]
  rw [congrArg LookUpResult.countNonRef
    (lookUp_eq_nonref inp (drainResizeStep s).surf (drainResizeStep s).countNonRef
      (drainResizeStep s).nonRefIdx h)]
  rw [(drain_fields s).1]

theorem ref_count_eq (inp : FrameInput) (s : TrackedBufState)
    (h : refBranchTaken inp = true) :
    (allocateForCurrFrame inp s).st.countNonRef = s.countNonRef := by
  rw [alloc_st_countNonRef inp s,
    (lookUp_ref_counters inp (drainResizeStep s).surf (drainResizeStep s).countNonRef
      (drainResizeStep s).nonRefIdx h).1,
    (drain_fields s).1]

theorem ref_alloc_ok_index_lt (inp : FrameInput) (s : TrackedBufState)
    (h : refBranchTaken inp = true) (hok : (allocateForCurrFrame inp s).ok = true) :
    (allocateForCurrFrame inp s).index < CODEC_NUM_REF_BUFFERS := by
  have hlt := (alloc_ok_iff inp s).mp hok
  have hidx : (allocateForCurrFrame inp s).index =
      (refSel inp.refList (drainResizeStep s).surf).getD PICTURE_MAX_7BITS := by
    rw [alloc_index inp s]
    exact lookUp_ref_index inp _ _ _ h
  cases hsel : refSel inp.refList (drainResizeStep s).surf with
  | none =>
    rw [lookUp_ref_index inp _ _ _ h, hsel] at hlt
    exact absurd hlt (by decide)
  | some i =>
    rw [hidx, hsel]
    exact (refSel_some _ _ hsel).1

theorem ref_alloc_wait_false (inp : FrameInput) (s : TrackedBufState)
    (h : refBranchTaken inp = true) (hok : (allocateForCurrFrame inp s).ok = true) :
    (allocateForCurrFrame inp s).st.waitForTrackedBuffer = false := by
  rw [alloc_wait_ok inp s hok]
  have hlt := ref_alloc_ok_index_lt inp s h hok
  simp [Nat.not_le.mpr hlt]

theorem nonref_wait_flag (inp : FrameInput) (s : TrackedBufState)
    (h : refBranchTaken inp = false) :
    (allocateForCurrFrame inp s).st.waitForTrackedBuffer =
      decide (CODEC_NUM_NON_REF_BUFFERS ≤ (allocateForCurrFrame inp s).st.countNonRef) := by
  have hok := (nonref_alloc_in_range inp s h).2.2.2
  rw [alloc_wait_ok inp s hok]
  have hge := (nonref_alloc_in_range inp s h).2.1
  simp [hge]

end PolicyAssembly

/-! ## HEVC fold characterizations -/

theorem sameRef_step (b : Bool) (slc : HevcSliceParams) :
    validateSameRefInL0L1 b slc =
      (b && !(decide (slc.numL0Minus1 ≥ slc.numL1Minus1) && sliceHasRefListMismatch slc)) := by
  unfold validateSameRefInL0L1
  cases b
  · simp
  · by_cases hge : slc.numL0Minus1 ≥ slc.numL1Minus1
    · simp [hge]
    · simp [hge]

theorem sameRef_foldl :
    ∀ (slices : List HevcSliceParams) (b : Bool),
      slices.foldl validateSameRefInL0L1 b =
        (b && slices.all (fun slc =>
          !(decide (slc.numL0Minus1 ≥ slc.numL1Minus1) && sliceHasRefListMismatch slc))) := by
  intro slices
  induction slices with
  | nil => intro b; simp
  | cons slc rest ih =>
    intro b
    rw [List.foldl_cons, ih, List.all_cons, sameRef_step, Bool.and_assoc]

theorem markUsedList_valid (cand : List CodecPicture) :
    ∀ (pics : List CodecPicture) (u : Nat → Bool) (p : Nat),
      markUsedList cand u pics p = true →
      u p = true ∨ (cand.getD p invalidPic).valid = true := by
  intro pics
  induction pics with
  | nil => intro u p hp; exact Or.inl hp
  | cons q rest ih =>
    intro u p hp
    have hp' : markUsedList cand
        (if q.valid && (cand.getD q.frameIdx invalidPic).valid then
          updFun u q.frameIdx true else u) rest p = true := hp
    rcases ih _ p hp' with h1 | h1
    · by_cases hc : (q.valid && (cand.getD q.frameIdx invalidPic).valid) = true
      · rw [if_pos hc] at h1
        by_cases hpq : p = q.frameIdx
        · subst hpq
          exact Or.inr (by simpa using (Bool.and_elim_right hc))
        · rw [updFun_ne _ _ hpq] at h1
          exact Or.inl h1
      · rw [if_neg hc] at h1
        exact Or.inl h1
    · exact Or.inr h1

theorem currUsed_fold (cand : List CodecPicture) :
    ∀ (slices : List HevcSliceParams) (u : Nat → Bool) (p : Nat),
      slices.foldl (fun v slc => markUsedList cand v (sliceRefEntries slc)) u p = true →
      u p = true ∨ (cand.getD p invalidPic).valid = true := by
  intro slices
  induction slices with
  | nil => intro u p hp; exact Or.inl hp
  | cons slc rest ih =>
    intro u p hp
    rcases ih _ p hp with h1 | h1
    · exact markUsedList_valid cand (sliceRefEntries slc) u p h1
    · exact Or.inr h1

theorem emptyCand_activeEmpty (cand : List CodecPicture) (slices : List HevcSliceParams)
    (he : emptyRefFrmList cand = true) : activeSetEmpty cand slices = true := by
  unfold activeSetEmpty
  rw [List.all_eq_true]
  intro p hp
  cases hu : currUsedRefPic cand slices p
  · rfl
  · exfalso
    rcases currUsed_fold cand slices (fun _ => false) p hu with h1 | h1
    · cases h1
    · unfold emptyRefFrmList at he
      rw [List.all_eq_true] at he
      have := he p hp
      rw [h1] at this
      cases this

theorem adjusted_iff (ct : Nat) (cand : List CodecPicture) :
    adjustedPictureCodingType ct cand = I_TYPE ↔
      (ct = I_TYPE ∨ emptyRefFrmList cand = true) := by
  unfold adjustedPictureCodingType
  by_cases he : emptyRefFrmList cand = true
  · by_cases hct : ct = I_TYPE
    · simp [he, hct]
    · simp [he, hct]
  · have he' : emptyRefFrmList cand = false := bool_eq_false_of_ne_true he
    by_cases hct : ct = I_TYPE
    · simp [he', hct]
    · simp [he', hct]

/-! ## Claims -/

/-- C1, counterexample to the claim as stated: the whole-table no-aliasing
invariant is violated by a reachable state.  Two non-reference allocations
carrying the same reconstructed-picture identity (`aliasOps`) bind slots 9
and 10 to the same non-sentinel identity, because the non-reference branch
of `LookUpBufIndex` binds `m_currReconstructedPic.FrameIdx` into the
round-robin slot without checking any other slot's binding. -/
theorem no_aliasing_full_table_refuted : ¬ NoAliasingAll (runOps initState aliasOps) :=
  fun h => h 9 10 (by decide) (by decide) (by decide) (by decide) (by decide) (by decide)

/-- C1, amended: at every state reachable by allocations and geometry
changes, at most one slot of the reference region (slots
`0 .. CODEC_NUM_REF_BUFFERS - 1`) holds a given non-sentinel bound
identity, provided every reference-branch allocation binds an identity that
does not occur in its own candidate reference list (a picture is not its
own reference).  Aliasing across the whole table remains reachable (see the
counterexample). -/
theorem no_aliasing_ref_region_invariant (l : List PoolOp)
    (hgood : ∀ op ∈ l, goodPoolOp op = true) :
    NoAliasingRef (runOps initState l) :=
  noAlias_runOps l initState hgood noAlias_init

/-- Witness for C1 at a concrete operation sequence. -/
theorem no_aliasing_ref_region_invariant_witness :
    (∀ op ∈ preC4, goodPoolOp op = true) ∧ NoAliasingRef (runOps initState preC4) :=
  ⟨by decide, no_aliasing_ref_region_invariant preC4 (by decide)⟩

/-- C2: for a reference-frame allocation (reference branch taken, no
deferred-release window open), `AllocateForCurrFrame` realises exactly the
scan-reclaim-select policy `RefAllocationPolicy`: slots
`0 .. CODEC_NUM_REF_BUFFERS - 1` are scanned in order, every scanned slot
bound to a non-sentinel identity absent from the candidate list is unbound,
the first slot free in scan order (originally or after reclamation) is
selected and bound to the incoming identity, and when no reference-region
slot ends up free the call returns the fatal "No tracked buffer is
available!" error. -/
theorem reference_allocation_policy (inp : FrameInput) (s : TrackedBufState)
    (h : refBranchTaken inp = true) (hz : s.countResize = 0) :
    RefAllocationPolicy inp s :=
  refAllocationPolicy_holds inp s h hz

/-- Witness for C2 at a concrete input and state. -/
theorem reference_allocation_policy_witness :
    refBranchTaken inputC2 = true ∧ initState.countResize = 0 ∧
      RefAllocationPolicy inputC2 initState :=
  ⟨by decide, rfl, reference_allocation_policy inputC2 initState (by decide) rfl⟩

/-- C3, counterexample to the claim as stated: `m_waitForTrackedBuffer` is
not "true exactly when `NonRefCapacity` consecutive non-reference
allocations have occurred without an intervening reference allocation or
reset".  On `counterC3` (`nonref, nonref, nonref, ref, nonref`, wait signal
absent) the code's flag trace is `[F, F, T, F, T]` while the claim's
counter, reset by the intervening reference allocation, yields
`[F, F, T, F, F]`: the reference branch of `LookUpBufIndex` never touches
`m_trackedBufCountNonRef`. -/
theorem backpressure_exactly_when_refuted :
    ¬ (∀ l : List FrameInput, allocTrace initState l = claimBackpressureFlags 0 l) :=
  fun h => absurd (h counterC3) (by decide)

/-- C3, amended: `m_waitForTrackedBuffer` is true exactly when the
allocation takes the non-reference branch and the saturating counter of
non-reference allocations - reset only by the external wait-for-PAK signal,
never by a reference allocation - has reached
`CODEC_NUM_NON_REF_BUFFERS`.  In the `1(ref), 2, 3, 4(nonref), 5(ref)`
scenario with the wait signal absent, picture 4 raises the flag and picture
5 binds into the reference region without a wait but leaves the counter
saturated at `CODEC_NUM_NON_REF_BUFFERS` (it is not reset to 0). -/
theorem backpressure_flag_characterization :
    (∀ (inp : FrameInput) (s : TrackedBufState), refBranchTaken inp = false →
      (allocateForCurrFrame inp s).st.countNonRef =
        (if inp.waitForPak = true then 0
         else if s.countNonRef < CODEC_NUM_NON_REF_BUFFERS then s.countNonRef + 1
         else s.countNonRef) ∧
      (allocateForCurrFrame inp s).st.waitForTrackedBuffer =
        decide (CODEC_NUM_NON_REF_BUFFERS ≤ (allocateForCurrFrame inp s).st.countNonRef)) ∧
    (∀ (inp : FrameInput) (s : TrackedBufState), refBranchTaken inp = true →
      (allocateForCurrFrame inp s).st.countNonRef = s.countNonRef ∧
      ((allocateForCurrFrame inp s).ok = true →
        (allocateForCurrFrame inp s).st.waitForTrackedBuffer = false)) ∧
    allocTrace initState scenarioC3 = [false, false, false, true, false] ∧
    (runOps initState (scenarioC3.map PoolOp.alloc)).countNonRef =
      CODEC_NUM_NON_REF_BUFFERS ∧
    (runOps initState (scenarioC3.map PoolOp.alloc)).currIdx < CODEC_NUM_REF_BUFFERS := by
  refine ⟨?_, ?_, by decide, by decide, by decide⟩
  · intro inp s h
    exact ⟨nonref_count_eq inp s h, nonref_wait_flag inp s h⟩
  · intro inp s h
    exact ⟨ref_count_eq inp s h, fun hok => ref_alloc_wait_false inp s h hok⟩

/-- Witness for C3 at a concrete non-reference allocation. -/
theorem backpressure_flag_characterization_witness :
    refBranchTaken (nrInput 9) = false ∧
      (allocateForCurrFrame (nrInput 9) initState).st.countNonRef =
        (if (nrInput 9).waitForPak = true then 0
         else if initState.countNonRef < CODEC_NUM_NON_REF_BUFFERS then
           initState.countNonRef + 1
         else initState.countNonRef) :=
  ⟨by decide, (backpressure_flag_characterization.1 (nrInput 9) initState (by decide)).1⟩

/-- C4, counterexample to the claim as stated: the three most-recently-bound
slots are NOT all kept until `NonRefCapacity` further allocation calls have
occurred.  After `preC4` (slots 0, 1, 2 bound, each owning resources), a
geometry change, and a single further allocation, slot 0 - the oldest of
the three protected slots - has already lost its resources:
`ReleaseBufferOnResChange` frees one protected slot on every allocation
call of the window, starting with the first. -/
theorem resize_protection_claim_refuted : ¬ claimResizeProtection :=
  fun h => h preC4 (postC4.take 1) (by decide) 0 (Or.inl (by decide)) (by decide) (by decide)

/-- C4, amended: at `notifyGeometryChanged` every slot outside the three
most-recently-bound is released immediately and marked free, the three
most-recently-bound keep their resources and are marked `PICTURE_RESIZE`,
and the countdown is set to `CODEC_NUM_NON_REF_BUFFERS`; then each of the
following `CODEC_NUM_NON_REF_BUFFERS` allocation calls releases the oldest
remaining protected slot (the first one already during the first call), so
that after exactly `CODEC_NUM_NON_REF_BUFFERS` subsequent allocations no
old-geometry buffer remains in the pool (and not earlier). -/
theorem resize_deferred_release :
    (∀ (s : TrackedBufState) (i : Nat), i < CODEC_NUM_TRACKED_BUFFERS →
      i ≠ s.anteIdx → i ≠ s.penuIdx → i ≠ s.currIdx →
      (notifyGeometryChanged s).res i = none ∧
      (notifyGeometryChanged s).surf i = PICTURE_MAX_7BITS) ∧
    (∀ (s : TrackedBufState) (i : Nat), i < CODEC_NUM_TRACKED_BUFFERS →
      (i = s.anteIdx ∨ i = s.penuIdx ∨ i = s.currIdx) →
      (notifyGeometryChanged s).res i = s.res i ∧
      (notifyGeometryChanged s).surf i = PICTURE_RESIZE) ∧
    (∀ s : TrackedBufState,
      (notifyGeometryChanged s).countResize = CODEC_NUM_NON_REF_BUFFERS) ∧
    ((c4After 0).res 0 = some 0 ∧ (c4After 0).res 1 = some 0 ∧
     (c4After 0).res 2 = some 0 ∧
     (c4After 1).res 0 = none ∧ (c4After 1).res 1 = some 0 ∧
     (c4After 1).res 2 = some 0 ∧
     (c4After 2).res 1 = none ∧ (c4After 2).res 2 = some 0 ∧
     (c4After 3).res 2 = none ∧
     newGeomInPlace (c4After 3) = true ∧ newGeomInPlace (c4After 2) = false) := by
  refine ⟨?_, ?_, fun s => rfl, by decide⟩
  · intro s i hi h1 h2 h3
    constructor
    · show (if i < CODEC_NUM_TRACKED_BUFFERS then
          if i ≠ s.anteIdx ∧ i ≠ s.penuIdx ∧ i ≠ s.currIdx then none else s.res i
        else s.res i) = none
      rw [if_pos hi, if_pos ⟨h1, h2, h3⟩]
    · show (if i < CODEC_NUM_TRACKED_BUFFERS then
          if i ≠ s.anteIdx ∧ i ≠ s.penuIdx ∧ i ≠ s.currIdx then PICTURE_MAX_7BITS
          else PICTURE_RESIZE
        else s.surf i) = PICTURE_MAX_7BITS
      rw [if_pos hi, if_pos ⟨h1, h2, h3⟩]
  · intro s i hi hd
    have hcond : ¬ (i ≠ s.anteIdx ∧ i ≠ s.penuIdx ∧ i ≠ s.currIdx) := by
      rcases hd with h | h | h
      · exact fun hc => hc.1 h
      · exact fun hc => hc.2.1 h
      · exact fun hc => hc.2.2 h
    constructor
    · show (if i < CODEC_NUM_TRACKED_BUFFERS then
          if i ≠ s.anteIdx ∧ i ≠ s.penuIdx ∧ i ≠ s.currIdx then none else s.res i
        else s.res i) = s.res i
      rw [if_pos hi, if_neg hcond]
    · show (if i < CODEC_NUM_TRACKED_BUFFERS then
          if i ≠ s.anteIdx ∧ i ≠ s.penuIdx ∧ i ≠ s.currIdx then PICTURE_MAX_7BITS
          else PICTURE_RESIZE
        else s.surf i) = PICTURE_RESIZE
      rw [if_pos hi, if_neg hcond]

/-- Witness for C4 at a concrete state and slot. -/
theorem resize_deferred_release_witness :
    (4 < CODEC_NUM_TRACKED_BUFFERS ∧ 4 ≠ (runOps initState preC4).anteIdx ∧
      4 ≠ (runOps initState preC4).penuIdx ∧ 4 ≠ (runOps initState preC4).currIdx) ∧
    (notifyGeometryChanged (runOps initState preC4)).res 4 = none ∧
    (notifyGeometryChanged (runOps initState preC4)).surf 4 = PICTURE_MAX_7BITS :=
  ⟨⟨by decide, by decide, by decide, by decide⟩,
   resize_deferred_release.1 (runOps initState preC4) 4 (by decide) (by decide) (by decide)
     (by decide)⟩

/-- C5: an active candidate-list entry whose `FrameIdx` duplicates an
EARLIER entry is assigned that earlier entry's mapping even when the
earlier entry is inactive and unmapped, because the duplicate search of
`SetPictureStructs` tests `bCurrUsedRefPic[i]` (the current position,
always true there) instead of `bCurrUsedRefPic[ii]`.  On `candC5` (two
positions naming frame 3, only position 1 referenced by a slice) the active
position 1 is left unmapped (`-1`) instead of receiving frame-store id 0 as
the claim requires.  On the claim's own `[A, B, A, C]` all-active example
the mapping is `A→0, B→1, A→0, C→2` as claimed. -/
theorem refIdxMapping_inactive_duplicate_bug :
    currUsedRefPic candC5 slicesC5 1 = true ∧
    refIdxMappingAt candC5 slicesC5 1 = some (-1) ∧
    refIdxMappingAt candDedup slicesDedup 0 = some 0 ∧
    refIdxMappingAt candDedup slicesDedup 1 = some 1 ∧
    refIdxMappingAt candDedup slicesDedup 2 = some 0 ∧
    refIdxMappingAt candDedup slicesDedup 3 = some 2 := by
  decide

/-- C6: a picture whose active reference set holds 9 distinct physical
identities is NOT always rejected.  On `candC6` (position 0 inactive but
aliasing active position 1) the duplicate-search slip of C5 makes position
1 not count towards the unique-reference total, so resolution succeeds with
9 distinct active identities; on `candC6core` (same 9 identities, no
aliasing position) the capacity check fires as the claim describes. -/
theorem capacity_check_bypassed_bug :
    (activeIdentities candC6 slicesC6).length = 9 ∧
    refResolutionOk candC6 slicesC6 = true ∧
    (activeIdentities candC6core slicesC6).length = 9 ∧
    refResolutionOk candC6core slicesC6 = false := by
  decide

/-- C7, counterexample to the claim as stated: `bSameRefList` is NOT cleared
whenever the two lists differ at a common index within the shorter list's
length.  On `slicesC7` (list 0 = `[1]`, list 1 = `[2, 3]`) the lists differ
at index 0, yet `ValidateSameRefInL0L1` skips the comparison entirely
because `num_ref_idx_l0_active_minus1 < num_ref_idx_l1_active_minus1`, and
the flag stays true. -/
theorem same_ref_list_shorter_claim_refuted :
    ¬ (∀ slices : List HevcSliceParams, bSameRefList slices = claimSameRefList slices) :=
  fun h => absurd (h slicesC7) (by decide)

/-- C7, amended: `bSameRefList` starts true and ends false exactly when some
slice has its list 0 at least as long as its list 1 and the two lists hold
valid entries with different identities at a common index within list 1's
length; slices whose list 1 is longer than list 0 are never examined. -/
theorem same_ref_list_characterization :
    ∀ slices : List HevcSliceParams,
      bSameRefList slices = slices.all (fun slc =>
        !(decide (slc.numL0Minus1 ≥ slc.numL1Minus1) && sliceHasRefListMismatch slc)) := by
  intro slices
  unfold bSameRefList
  rw [sameRef_foldl slices true, Bool.true_and]

/-- C8, counterexample to the claim as stated: not every tracked-buffer
allocation site zero-fills.  `AllocateDsReconSurfacesVdenc` passes
`zeroOnAllocate = false` for the 4x downscaled reconstruction surface. -/
theorem zero_fill_claim_refuted : ¬ claimAllZeroFilled :=
  fun h => absurd (h TrackedResKind.ds4xRecon) (by decide)

/-- C8, amended: the MB-code and MV-data buffers are allocated with
`zeroOnAllocate = true`, while the VDEnc 4x and 8x downscaled
reconstruction surfaces are allocated with `zeroOnAllocate = false`
(independently of the slot id). -/
theorem zero_fill_flags_by_kind :
    allocateResourceZeroFlag TrackedResKind.mbCodeBuffer = true ∧
    allocateResourceZeroFlag TrackedResKind.mvDataBuffer = true ∧
    allocateResourceZeroFlag TrackedResKind.ds4xRecon = false ∧
    allocateResourceZeroFlag TrackedResKind.ds8xRecon = false := by
  decide

/-- C9, counterexample to the claim as stated: a predicted picture whose
ACTIVE reference set is empty is not necessarily re-typed as I.  On
`candC9` (one valid candidate entry) with `slicesC9` (every slice reference
entry invalid) the active set is empty, yet the coding type stays `P_TYPE`:
the code tests emptiness of the candidate `RefFrameList`, not of the
slice-derived active set. -/
theorem empty_active_set_intra_refuted : ¬ claimEmptyActiveIntra :=
  fun h => absurd (h P_TYPE candC9 slicesC9 (by decide) (by decide)) (by decide)

/-- C9, amended: the picture is treated as all-intra exactly when its
nominal type is already I or its candidate reference list (`RefFrameList`)
is entirely invalid; an entirely-invalid candidate list does imply an empty
active reference set (so the code's condition is strictly stronger than the
claim's). -/
theorem empty_candidate_list_intra :
    (∀ (ct : Nat) (cand : List CodecPicture),
      adjustedPictureCodingType ct cand = I_TYPE ↔
        (ct = I_TYPE ∨ emptyRefFrmList cand = true)) ∧
    (∀ (cand : List CodecPicture) (slices : List HevcSliceParams),
      emptyRefFrmList cand = true → activeSetEmpty cand slices = true) :=
  ⟨adjusted_iff, emptyCand_activeEmpty⟩

/-- Witness for C9 on the empty candidate list. -/
theorem empty_candidate_list_intra_witness :
    emptyRefFrmList ([] : List CodecPicture) = true ∧
      activeSetEmpty ([] : List CodecPicture) slicesC9 = true :=
  ⟨by decide, empty_candidate_list_intra.2 [] slicesC9 (by decide)⟩

/-- C10: every allocation taking the non-reference branch returns
`CODEC_NUM_REF_BUFFERS` plus the advanced round-robin cursor modulo
`CODEC_NUM_NON_REF_BUFFERS`, an index that always lies in the non-reference
region and strictly below `CODEC_NUM_TRACKED_BUFFERS`; hence the "No
tracked buffer is available!" failure of `AllocateForCurrFrame` is
unreachable for non-reference allocations. -/
theorem nonref_branch_unreachable_failure (inp : FrameInput) (s : TrackedBufState)
    (h : refBranchTaken inp = false) :
    (allocateForCurrFrame inp s).index =
        CODEC_NUM_REF_BUFFERS + (s.nonRefIdx + 1) % CODEC_NUM_NON_REF_BUFFERS ∧
      CODEC_NUM_REF_BUFFERS ≤ (allocateForCurrFrame inp s).index ∧
      (allocateForCurrFrame inp s).index < CODEC_NUM_TRACKED_BUFFERS ∧
      (allocateForCurrFrame inp s).ok = true :=
  nonref_alloc_in_range inp s h

/-- Witness for C10 at a concrete non-reference allocation. -/
theorem nonref_branch_unreachable_failure_witness :
    refBranchTaken (nrInput 4) = false ∧
      ((allocateForCurrFrame (nrInput 4) initState).index =
        CODEC_NUM_REF_BUFFERS + (initState.nonRefIdx + 1) % CODEC_NUM_NON_REF_BUFFERS ∧
      CODEC_NUM_REF_BUFFERS ≤ (allocateForCurrFrame (nrInput 4) initState).index ∧
      (allocateForCurrFrame (nrInput 4) initState).index < CODEC_NUM_TRACKED_BUFFERS ∧
      (allocateForCurrFrame (nrInput 4) initState).ok = true) :=
  ⟨by decide, nonref_branch_unreachable_failure (nrInput 4) initState (by decide)⟩

end MediaDriver
